import Mathlib

/-!
Verification of the client-side image-ingestion pipeline of the
nextjs-starter-template repository: the compression helper
(`src/helpers/compress.ts`), the upload hook (`src/hooks/use-image-upload.ts`)
and the upload control (`src/components/file-upload.tsx`), shallowly embedded
in Lean.  External collaborators (the `browser-image-compression` encoder, the
upload endpoint, the DOM object-URL allocator) are modelled as explicit inputs:
the encoder's output file, the per-payload upload outcome, and an allocation
counter respectively.
-/

namespace ImagePipeline

/-- A user-selected file as the pipeline sees it: name, MIME type, byte size,
and the pixel dimensions the asynchronous probe would report (`none` when the
probe fails, i.e. `getImageDimensions` rejects). -/
structure FileModel where
  name : String
  type : String
  size : Nat
  dims : Option (Nat × Nat) := none
  deriving Repr, DecidableEq

/-- `CompressOptions` from `src/helpers/compress.ts` — only the fields the
skip decision reads (`fileType`); `none` models an absent property. -/
structure CompressOptions where
  fileType : Option String := none
  deriving Repr, DecidableEq

/-- `CompressResult` from `src/helpers/compress.ts`.  `compressionRatio` is a
JS number computed as `compressedSize / originalSize`; modelled as a rational. -/
structure CompressResult where
  file : FileModel
  originalSize : Nat
  compressedSize : Nat
  compressionRatio : ℚ
  wasSkipped : Bool
  deriving Repr, DecidableEq

/-- JS `s.startsWith(pre)`, as a prefix test on the character sequence
(kernel-computable, unlike the byte-position based library version). -/
def strStartsWith (s pre : String) : Bool :=
  pre.data.isPrefixOf s.data

/-- `isImageFile` from `src/helpers/compress.ts`:
`file.type.startsWith("image/")`. -/
def isImageFile (file : FileModel) : Bool :=
  strStartsWith file.type "image/"

/-- JS `x.toFixed(1)` followed by `Number.parseFloat`, for a nonnegative exact
quotient `num/den`: round to the nearest tenth (ties away from zero, as
`toFixed` does for positive values) and drop a trailing `.0`. -/
def fixedOneStr (num den : Nat) : String :=
  let tenths := (20 * num + den) / (2 * den)
  if tenths % 10 = 0 then toString (tenths / 10)
  else toString (tenths / 10) ++ "." ++ toString (tenths % 10)

/-- Fuel-based base-1024 logarithm: `logFuel n n` is
`Math.floor(Math.log(n)/Math.log(1024))` for positive `n` (the quotient is
divided by 1024 until it drops below 1024; `n` itself is ample fuel). -/
def logFuel : Nat → Nat → Nat
  | 0, _ => 0
  | fuel + 1, n => if n < 1024 then 0 else logFuel fuel (n / 1024) + 1

/-- `formatFileSize` from `src/helpers/compress.ts`: binary-unit rendering of
a byte count.  `logFuel bytes bytes` is `Math.floor(Math.log(bytes)/Math.log(k))`
for positive `bytes`; indexing past the `units` array yields the string
`"undefined"` exactly as JS template interpolation would. -/
def formatFileSize (bytes : Nat) : String :=
  if bytes = 0 then "0 B"
  else
    let units := ["B", "KB", "MB", "GB"]
    let i := logFuel bytes bytes
    fixedOneStr bytes (1024 ^ i) ++ " " ++ units.getD i "undefined"

/-- The skip test `options.fileType && options.fileType !== file.type` from
`compressImage`: a format conversion is forced only when a `fileType` is
present and differs from the input's MIME type. -/
def isFormatForced (options : CompressOptions) (file : FileModel) : Bool :=
  match options.fileType with
  | none => false
  | some t => t != file.type

/-- `compressImage` from `src/helpers/compress.ts`, success path.  The awaited
encoder output (`browser-image-compression`'s returned file) is the explicit
argument `compressedFile`.  When the encoding is not smaller than the input and
no format conversion was forced, the original file is returned with
`wasSkipped = true`; otherwise the encoder output is returned. -/
def compressImage (file : FileModel) (options : CompressOptions)
    (compressedFile : FileModel) : CompressResult :=
  let originalSize := file.size
  let compressedSize := compressedFile.size
  let inefficient := decide (compressedSize ≥ originalSize)
  if inefficient && !(isFormatForced options file) then
    { file := file
      originalSize := originalSize
      compressedSize := originalSize
      compressionRatio := 1
      wasSkipped := true }
  else
    { file := compressedFile
      originalSize := originalSize
      compressedSize := compressedSize
      compressionRatio := (compressedSize : ℚ) / (originalSize : ℚ)
      wasSkipped := false }

/-- `compressImage` including its failure path: when the encoder rejects, the
`catch` block rethrows with the `Image compression failed: ` prefix. -/
def compressImageE (file : FileModel) (options : CompressOptions)
    (encoded : Except String FileModel) : Except String CompressResult :=
  match encoded with
  | .error msg => .error ("Image compression failed: " ++ msg)
  | .ok compressedFile => .ok (compressImage file options compressedFile)

/-- `ValidationOptions` from `src/hooks/use-image-upload.ts`; `none` models an
omitted property. -/
structure ValidationOptions where
  maxSizeMB : Option Nat := none
  allowedTypes : Option (List String) := none
  minWidth : Option Nat := none
  minHeight : Option Nat := none
  maxWidth : Option Nat := none
  maxHeight : Option Nat := none
  deriving Repr, DecidableEq

/-- `DEFAULT_VALIDATION.allowedTypes` from `src/hooks/use-image-upload.ts`. -/
def defaultAllowedTypes : List String :=
  ["image/jpeg", "image/png", "image/webp", "image/gif"]

/-- JS truthiness of an optional number: absent and `0` are falsy. -/
def truthyNat : Option Nat → Bool
  | none => false
  | some n => n != 0

/-- `validateFile` from `src/hooks/use-image-upload.ts`.  The rule set is
`{ ...DEFAULT_VALIDATION, ...options }`, so an omitted `maxSizeMB` defaults to
10 and omitted `allowedTypes` to the default list; checks run in source order:
image MIME prefix, allowed-types membership, size limit.  The merged
`allowedTypes` is always an array (truthy), so its check always runs; the
size check is guarded by the truthiness of `maxSizeMB`. -/
def validateFile (file : FileModel) (options : ValidationOptions) :
    Option String :=
  let maxSizeMB := options.maxSizeMB.getD 10
  let allowedTypes := options.allowedTypes.getD defaultAllowedTypes
  if !isImageFile file then
    some "File must be an image"
  else if !allowedTypes.contains file.type then
    some ("Allowed types: " ++ String.intercalate ", " allowedTypes)
  else if truthyNat (some maxSizeMB) && decide (file.size > maxSizeMB * 1024 * 1024) then
    some ("File too large. Max: " ++ toString maxSizeMB ++ "MB, Got: "
      ++ formatFileSize file.size)
  else
    none

/-- `validateDimensions` from `src/hooks/use-image-upload.ts`.  When none of
the four bounds is truthy the function returns `null` before the asynchronous
`getImageDimensions` probe; in the model the probe's outcome is `file.dims`,
with `none` standing for a probe rejection caught by the `catch` block. -/
def validateDimensions (file : FileModel) (options : ValidationOptions) :
    Option String :=
  if !(truthyNat options.minWidth || truthyNat options.minHeight
      || truthyNat options.maxWidth || truthyNat options.maxHeight) then
    none
  else
    match file.dims with
    | none => some "Failed to read image dimensions"
    | some (width, height) =>
      if truthyNat options.minWidth && decide (width < options.minWidth.getD 0) then
        some ("Image width must be at least " ++ toString (options.minWidth.getD 0) ++ "px")
      else if truthyNat options.minHeight && decide (height < options.minHeight.getD 0) then
        some ("Image height must be at least " ++ toString (options.minHeight.getD 0) ++ "px")
      else if truthyNat options.maxWidth && decide (width > options.maxWidth.getD 0) then
        some ("Image width must be at most " ++ toString (options.maxWidth.getD 0) ++ "px")
      else if truthyNat options.maxHeight && decide (height > options.maxHeight.getD 0) then
        some ("Image height must be at most " ++ toString (options.maxHeight.getD 0) ++ "px")
      else
        none

/-! ### The upload hook's session-guarded state (`src/hooks/use-image-upload.ts`)

The hook's mutable cell is `ImageUploadState` plus the two refs
`previewUrlRef` and `compressionIdRef`.  React's functional `setState`
updates on the single cooperative execution context are modelled as atomic
state transformations; each asynchronous resumption of `runCompression`
(a progress callback firing, the compression promise resolving, or the
promise rejecting) is one event carrying the `sessionId` the closure
captured.  Preview object URLs are modelled by the allocation counter of the
object-URL collaborator, so a preview handle is a `Nat`. -/

/-- `ImageUploadState` from `src/hooks/use-image-upload.ts` (the preview URL
string is represented by its handle number). -/
structure ImageUploadState where
  file : Option FileModel := none
  compressedFile : Option FileModel := none
  preview : Option Nat := none
  isCompressing : Bool := false
  progress : Nat := 0
  error : Option String := none
  originalSize : Nat := 0
  compressedSize : Nat := 0
  wasSkipped : Bool := false
  deriving Repr, DecidableEq

/-- The hook's full mutable cell: the React state plus `compressionIdRef`. -/
structure HookState where
  ui : ImageUploadState
  counter : Nat
  deriving Repr, DecidableEq

/-- One observable transition of the hook.  `startSession` is the common
prologue of `handleFile`, `compress` and `reset`: each begins with
`compressionIdRef.current += 1`; the synchronous and session-guarded work the
entry point then performs on the React state is abstracted as `eff` (the
claim under verification constrains only stale sessions' resolutions, not
what the newly started session writes).  The three `…Resolved`/`…Failed`
events are the asynchronous resumptions inside `runCompression`, lines
158–183 of the hook, each carrying the `sessionId` its closure captured. -/
inductive HookEvent where
  | startSession (eff : ImageUploadState → ImageUploadState)
  | progressResolved (sessionId progressVal : Nat)
  | compressResolved (sessionId : Nat) (result : CompressResult)
  | compressFailed (sessionId : Nat) (message : String)

/-- The state update the compression-success handler performs (hook lines
167–174). -/
def applyCompressSuccess (result : CompressResult) (s : ImageUploadState) :
    ImageUploadState :=
  { s with
    compressedFile := some result.file
    compressedSize := result.compressedSize
    wasSkipped := result.wasSkipped
    isCompressing := false
    progress := 100 }

/-- The state update the compression-failure handler performs (hook lines
178–182). -/
def applyCompressFailure (message : String) (s : ImageUploadState) :
    ImageUploadState :=
  { s with isCompressing := false, error := some message }

/-- The hook's transition function.  Every resolution handler compares the
captured `sessionId` against `compressionIdRef.current` and applies its
update only on equality, exactly as in the source (lines 159, 165, 176). -/
def hookStep : HookState → HookEvent → HookState
  | ⟨ui, counter⟩, .startSession eff => ⟨eff ui, counter + 1⟩
  | ⟨ui, counter⟩, .progressResolved sessionId progressVal =>
      ⟨if counter = sessionId then { ui with progress := progressVal } else ui, counter⟩
  | ⟨ui, counter⟩, .compressResolved sessionId result =>
      ⟨if counter = sessionId then applyCompressSuccess result ui else ui, counter⟩
  | ⟨ui, counter⟩, .compressFailed sessionId message =>
      ⟨if counter = sessionId then applyCompressFailure message ui else ui, counter⟩

/-! ### The upload control (`src/components/file-upload.tsx`) -/

deriving instance DecidableEq for Except

/-- JS `Promise.all` over already-settled outcomes: resolves with the list of
values when every promise fulfilled, rejects with an error when any promise
rejected. -/
def promiseAll {α : Type} : List (Except String α) → Except String (List α)
  | [] => .ok []
  | .error e :: _ => .error e
  | .ok a :: xs =>
    match promiseAll xs with
    | .error e => .error e
    | .ok rest => .ok (a :: rest)

/-- The per-file closure of the multiple-mode batch (`onDrop` lines 83–99):
compress the file, and on compression failure fall back to the raw file
(`catch { … return file; }`).  `encoded` is the encoder collaborator's
outcome for this file. -/
def batchPayload (file : FileModel) (options : CompressOptions)
    (encoded : Except String FileModel) : FileModel :=
  match compressImageE file options encoded with
  | .ok result => result.file
  | .error _ => file

/-- The multiple-mode branch of `onDrop` (`src/components/file-upload.tsx`
lines 74–119), returning the list passed to `onChange`, or `none` when
`onChange` is not invoked (empty batch, or the upload `Promise.all`
rejecting into the `catch` block).  `value` is the committed prop
(`Array.isArray(value) ? value : []`); each batch item pairs a dropped file
with its encoder outcome; `upload` is the `onUpload` collaborator. -/
def onDropMultiple (value : Option (List String))
    (batch : List (FileModel × Except String FileModel))
    (options : CompressOptions)
    (upload : FileModel → Except String String) : Option (List String) :=
  if batch.isEmpty then none
  else
    let compressedFiles := batch.map fun item => batchPayload item.1 options item.2
    match promiseAll (compressedFiles.map upload) with
    | .ok newUrls => some (value.getD [] ++ newUrls)
    | .error _ => none

/-- `handleCropAndUpload` (`src/components/file-upload.tsx` lines 138–180),
returning the single URL passed to `onChange`, or `none` when any stage
throws into the `catch` block (`getCroppedImg` returning no blob, compression
failing, or the upload rejecting) and `onChange` is not invoked. -/
def handleCropAndUpload (croppedBlob : Option FileModel)
    (options : CompressOptions) (encoded : Except String FileModel)
    (upload : FileModel → Except String String) : Option String :=
  match croppedBlob with
  | none => none
  | some croppedFile =>
    match compressImageE croppedFile options encoded with
    | .error _ => none
    | .ok result =>
      match upload result.file with
      | .error _ => none
      | .ok url => some url

/-! ### Preview object-URL lifecycle of the control -/

/-- The object-URL bookkeeping of one `FileUpload` control instance in single
mode: `imageSrc` is the React state holding the current preview URL (as the
allocator's handle number), `allocated` counts `URL.createObjectURL` calls
and `released` counts `URL.revokeObjectURL` calls. -/
structure ControlPreviewState where
  imageSrc : Option Nat := none
  allocated : Nat := 0
  released : Nat := 0
  deriving Repr, DecidableEq

/-- Lifecycle events of the single-mode control: a file selection
(`onDrop` lines 121–126), the dialog closing (`handleClose`, lines 182–185,
also invoked by `handleCropAndUpload` on success), and component unmount. -/
inductive ControlEvent where
  | selectSingle
  | closeDialog
  | teardown
  deriving Repr, DecidableEq

/-- The control's preview transitions as written: `onDrop` allocates a fresh
object URL and stores it in `imageSrc` without revoking the previous one;
`handleClose` clears `imageSrc` without revoking; the component registers no
unmount cleanup, so `teardown` revokes nothing. -/
def controlStep : ControlPreviewState → ControlEvent → ControlPreviewState
  | s, .selectSingle =>
      { s with imageSrc := some s.allocated, allocated := s.allocated + 1 }
  | s, .closeDialog => { s with imageSrc := none }
  | s, .teardown => s

/-! ## Theorems -/

/-- Claim C2: whenever the encoded output's byte size is at least the original
byte size and no conversion to a different MIME type is requested,
`compressImage` returns the original file with `wasSkipped = true`,
`compressedSize` equal to the original size and `compressionRatio = 1`;
conversely, when the output is strictly smaller or a different `fileType` was
requested, `wasSkipped = false` and the encoder's file is returned. -/
theorem compress_skip_invariant (file compressedFile : FileModel)
    (options : CompressOptions) :
    (compressedFile.size ≥ file.size → isFormatForced options file = false →
      compressImage file options compressedFile =
        { file := file, originalSize := file.size, compressedSize := file.size,
          compressionRatio := 1, wasSkipped := true })
    ∧ (compressedFile.size < file.size ∨ isFormatForced options file = true →
      compressImage file options compressedFile =
        { file := compressedFile, originalSize := file.size,
          compressedSize := compressedFile.size,
          compressionRatio := (compressedFile.size : ℚ) / (file.size : ℚ),
          wasSkipped := false }) := by
  constructor
  · intro hbig hforced
    simp [compressImage, hbig, hforced]
  · rintro (hsmall | hforced)
    · simp [compressImage, Nat.not_le.mpr hsmall]
    · simp [compressImage, hforced]

/-- Witness for C2: a 100 KiB PNG whose re-encoding comes out at 120 KiB, no
format conversion requested, is skipped with the original size reported. -/
theorem compress_skip_invariant_witness :
    (compressImage ⟨"photo.png", "image/png", 102400, none⟩ {}
        ⟨"photo.png", "image/png", 122880, none⟩).wasSkipped = true
    ∧ (compressImage ⟨"photo.png", "image/png", 102400, none⟩ {}
        ⟨"photo.png", "image/png", 122880, none⟩).compressedSize = 102400 := by
  have h := (compress_skip_invariant ⟨"photo.png", "image/png", 102400, none⟩
      ⟨"photo.png", "image/png", 122880, none⟩ {}).1 (by decide) (by decide)
  rw [h]
  exact ⟨rfl, rfl⟩

/-- Claim C7: a file that passes the image-type and allowed-types checks but
exceeds the configured `maxSizeMB` limit is rejected with a message citing
the configured limit and the formatted actual size. -/
theorem validate_oversize (file : FileModel) (options : ValidationOptions)
    (limit : Nat) (hlimit : options.maxSizeMB = some limit) (hpos : limit ≠ 0)
    (himg : isImageFile file = true)
    (hallowed : (options.allowedTypes.getD defaultAllowedTypes).contains file.type = true)
    (hsize : file.size > limit * 1024 * 1024) :
    validateFile file options =
      some ("File too large. Max: " ++ toString limit ++ "MB, Got: "
        ++ formatFileSize file.size) := by
  have hmem : file.type ∈ options.allowedTypes.getD defaultAllowedTypes := by
    simpa using hallowed
  simp [validateFile, hlimit, himg, hmem, truthyNat, hpos, hsize]

/-- Witness for C7: a 6 MiB PNG against a 5 MB limit yields the message
citing the 5MB limit and the 6 MB actual size. -/
theorem validate_oversize_witness :
    validateFile ⟨"big.png", "image/png", 6291456, none⟩ { maxSizeMB := some 5 }
      = some "File too large. Max: 5MB, Got: 6 MB" := by
  have h := validate_oversize ⟨"big.png", "image/png", 6291456, none⟩
      { maxSizeMB := some 5 } 5 rfl (by decide) (by decide) (by decide) (by decide)
  rw [h]
  decide

/-- Claim C8: for a fixed rule set, the validation verdicts are a function of
the file's MIME type, byte size and probed dimensions alone — two files
agreeing on those (regardless of name) receive the same verdict from both
`validateFile` and `validateDimensions`. -/
theorem validation_determinism (f g : FileModel) (rules : ValidationOptions)
    (htype : f.type = g.type) (hsize : f.size = g.size)
    (hdims : f.dims = g.dims) :
    validateFile f rules = validateFile g rules
    ∧ validateDimensions f rules = validateDimensions g rules := by
  constructor
  · simp [validateFile, isImageFile, htype, hsize]
  · simp [validateDimensions, hdims]

/-- Witness for C8: two files differing only in name receive the same
verdicts. -/
theorem validation_determinism_witness :
    validateFile ⟨"a.png", "image/png", 100, some (10, 10)⟩ {}
      = validateFile ⟨"b.jpg", "image/png", 100, some (10, 10)⟩ {}
    ∧ validateDimensions ⟨"a.png", "image/png", 100, some (10, 10)⟩ {}
      = validateDimensions ⟨"b.jpg", "image/png", 100, some (10, 10)⟩ {} :=
  validation_determinism ⟨"a.png", "image/png", 100, some (10, 10)⟩
    ⟨"b.jpg", "image/png", 100, some (10, 10)⟩ {} rfl rfl rfl

/-- Claim C9: the checks of `validateFile` have strict precedence — a
non-image MIME type yields `"File must be an image"` regardless of any other
violation, and an allowed-types violation yields the allowed-types message
regardless of the file's size. -/
theorem validate_precedence (f : FileModel) (rules : ValidationOptions) :
    (isImageFile f = false → validateFile f rules = some "File must be an image")
    ∧ (isImageFile f = true →
        (rules.allowedTypes.getD defaultAllowedTypes).contains f.type = false →
        validateFile f rules = some ("Allowed types: "
          ++ String.intercalate ", " (rules.allowedTypes.getD defaultAllowedTypes))) := by
  constructor
  · intro himg
    simp [validateFile, himg]
  · intro himg hallowed
    have hmem : f.type ∉ rules.allowedTypes.getD defaultAllowedTypes := by
      simpa using hallowed
    simp [validateFile, himg, hmem]

/-- Witness for C9: a 20 MiB PDF (non-image, oversize, not in the allowed
list) gets the image-type error; a 20 MiB TIFF image (allowed-types and size
both violated) gets the allowed-types error. -/
theorem validate_precedence_witness :
    validateFile ⟨"doc.pdf", "application/pdf", 20971520, none⟩ {}
      = some "File must be an image"
    ∧ validateFile ⟨"scan.tiff", "image/tiff", 20971520, none⟩ {}
      = some "Allowed types: image/jpeg, image/png, image/webp, image/gif" := by
  constructor
  · exact (validate_precedence ⟨"doc.pdf", "application/pdf", 20971520, none⟩ {}).1
      (by decide)
  · have h := (validate_precedence ⟨"scan.tiff", "image/tiff", 20971520, none⟩ {}).2
      (by decide) (by decide)
    rw [h]
    decide

/-- Claim C10: when none of the four dimension bounds is configured,
`validateDimensions` returns `null` without consulting the asynchronous
dimension probe — the verdict is `none` for every file, including one whose
probe would fail (`dims = none`), so a probe failure can cause a rejection
only when at least one bound is configured. -/
theorem dimension_probe_skipped (f : FileModel) (rules : ValidationOptions)
    (h1 : rules.minWidth = none) (h2 : rules.minHeight = none)
    (h3 : rules.maxWidth = none) (h4 : rules.maxHeight = none) :
    validateDimensions f rules = none := by
  simp [validateDimensions, h1, h2, h3, h4, truthyNat]

/-- Witness for C10: a file whose dimension probe would fail still passes the
dimension validation under an empty rule set. -/
theorem dimension_probe_skipped_witness :
    validateDimensions ⟨"opaque.png", "image/png", 4096, none⟩ {} = none :=
  dimension_probe_skipped ⟨"opaque.png", "image/png", 4096, none⟩ {}
    rfl rfl rfl rfl

/-- No hook transition ever decreases `compressionIdRef`. -/
theorem hookStep_counter_le (h : HookState) (e : HookEvent) :
    h.counter ≤ (hookStep h e).counter := by
  cases h with
  | mk ui counter => cases e <;> simp [hookStep]

/-- Over any event sequence, `compressionIdRef` is nondecreasing. -/
theorem hookFoldl_counter_le (h : HookState) (events : List HookEvent) :
    h.counter ≤ (events.foldl hookStep h).counter := by
  induction events generalizing h with
  | nil => exact Nat.le_refl _
  | cons e rest ih =>
    exact Nat.le_trans (hookStep_counter_le h e) (ih (hookStep h e))

/-- A resolution event whose captured session id differs from the current
counter leaves the hook state untouched. -/
theorem hookStep_stale_identity (h : HookState) (sessionId : Nat)
    (hne : h.counter ≠ sessionId) (progressVal : Nat) (result : CompressResult)
    (message : String) :
    hookStep h (.progressResolved sessionId progressVal) = h
    ∧ hookStep h (.compressResolved sessionId result) = h
    ∧ hookStep h (.compressFailed sessionId message) = h := by
  cases h with
  | mk ui counter =>
    refine ⟨?_, ?_, ?_⟩ <;> simp_all [hookStep]

/-- Claim C1: once a newer pipeline session has started (so the current
counter already exceeds session A's captured id), session A's eventual
compression resolutions — a progress callback, the completion handler, or
the error handler — leave the hook's state unchanged, however many further
events occur in between; only the active session's resolutions can mutate
it. -/
theorem session_invalidation (start : HookState) (sessionA : Nat)
    (laterEvents : List HookEvent) (progressVal : Nat)
    (result : CompressResult) (message : String)
    (hB : sessionA < start.counter) :
    hookStep (laterEvents.foldl hookStep start)
        (.progressResolved sessionA progressVal)
      = laterEvents.foldl hookStep start
    ∧ hookStep (laterEvents.foldl hookStep start)
        (.compressResolved sessionA result)
      = laterEvents.foldl hookStep start
    ∧ hookStep (laterEvents.foldl hookStep start)
        (.compressFailed sessionA message)
      = laterEvents.foldl hookStep start := by
  have hlt : sessionA < (laterEvents.foldl hookStep start).counter :=
    Nat.lt_of_lt_of_le hB (hookFoldl_counter_le start laterEvents)
  exact hookStep_stale_identity _ sessionA (Nat.ne_of_gt hlt) _ result message

/-- Witness for C1: session A (id 1) superseded by session B (counter 2);
after B's own progress lands, A's late completion is a no-op. -/
theorem session_invalidation_witness :
    (1 : Nat) < (⟨{}, 2⟩ : HookState).counter
    ∧ hookStep ([HookEvent.progressResolved 2 50].foldl hookStep ⟨{}, 2⟩)
        (.compressResolved 1 ⟨⟨"a.png", "image/png", 40, none⟩, 100, 40, 1, false⟩)
      = [HookEvent.progressResolved 2 50].foldl hookStep ⟨{}, 2⟩ :=
  ⟨by decide,
    (session_invalidation ⟨{}, 2⟩ 1 [.progressResolved 2 50] 0
      ⟨⟨"a.png", "image/png", 40, none⟩, 100, 40, 1, false⟩ "" (by decide)).2.1⟩

/-- `Promise.all` over a list of fulfilled outcomes resolves with the values
in order. -/
theorem promiseAll_map_ok {α : Type} (l : List α) :
    promiseAll (l.map Except.ok) = .ok l := by
  induction l with
  | nil => rfl
  | cons x xs ih => simp [promiseAll, ih]

/-- `Promise.all` over a list containing a rejected outcome rejects. -/
theorem promiseAll_error_of_mem {α : Type} (l : List (Except String α))
    (hmem : ∃ x ∈ l, ∃ e, x = .error e) :
    ∃ e, promiseAll l = .error e := by
  induction l with
  | nil =>
    rcases hmem with ⟨x, hx, _⟩
    cases hx
  | cons y ys ih =>
    rcases hmem with ⟨x, hx, e, hxe⟩
    rcases List.mem_cons.mp hx with h | h
    · subst h
      subst hxe
      exact ⟨e, by simp [promiseAll]⟩
    · cases y with
      | error e0 => exact ⟨e0, by simp [promiseAll]⟩
      | ok a =>
        rcases ih ⟨x, h, e, hxe⟩ with ⟨e', he'⟩
        exact ⟨e', by simp [promiseAll, he']⟩

/-- Claim C3: in multiple mode, if any upload of the batch rejects, `onChange`
is not invoked for that batch — no subset of the batch's URLs is appended to
the committed list. -/
theorem batch_atomicity (value : Option (List String))
    (batch : List (FileModel × Except String FileModel))
    (options : CompressOptions) (upload : FileModel → Except String String)
    (hfail : ∃ item ∈ batch, ∃ e,
      upload (batchPayload item.1 options item.2) = .error e) :
    onDropMultiple value batch options upload = none := by
  rcases hfail with ⟨item, hitem, e, he⟩
  have hempty : batch.isEmpty = false := by
    cases batch
    · cases hitem
    · rfl
  have hmem : upload (batchPayload item.1 options item.2)
      ∈ ((batch.map fun it => batchPayload it.1 options it.2).map upload) :=
    List.mem_map_of_mem upload (List.mem_map_of_mem _ hitem)
  rcases promiseAll_error_of_mem _ ⟨_, hmem, e, he⟩ with ⟨e', he'⟩
  have he'' : promiseAll
      (batch.map (upload ∘ fun item => batchPayload item.1 options item.2))
      = Except.error e' := by
    rw [← List.map_map]
    exact he'
  simp [onDropMultiple, hempty, he'']

/-- Witness for C3: a two-file batch where the second upload fails commits
nothing, despite the first upload having succeeded. -/
theorem batch_atomicity_witness :
    onDropMultiple (some ["https://cdn/old.jpg"])
      [(⟨"a.png", "image/png", 100, none⟩, .ok ⟨"a.png", "image/png", 50, none⟩),
       (⟨"b.png", "image/png", 100, none⟩, .ok ⟨"b.png", "image/png", 60, none⟩)]
      {} (fun f => if f.name = "a.png" then .ok "https://cdn/a.jpg"
        else .error "network error") = none :=
  batch_atomicity _ _ {} _
    ⟨(⟨"b.png", "image/png", 100, none⟩, .ok ⟨"b.png", "image/png", 60, none⟩),
      by decide, "network error", by decide⟩

/-- Claim C6: in multiple mode, when every upload of a nonempty batch
succeeds, the value committed through `onChange` is exactly the prior list
with the batch's URLs appended in order. -/
theorem batch_append (committed newUrls : List String)
    (batch : List (FileModel × Except String FileModel))
    (options : CompressOptions) (upload : FileModel → Except String String)
    (hne : batch ≠ [])
    (hok : (batch.map fun item => batchPayload item.1 options item.2).map upload
      = newUrls.map Except.ok) :
    onDropMultiple (some committed) batch options upload
      = some (committed ++ newUrls) := by
  have hempty : batch.isEmpty = false := by
    cases batch
    · exact absurd rfl hne
    · rfl
  simp [onDropMultiple, hempty, hok, promiseAll_map_ok]

/-- Witness for C6: both uploads of a two-file batch succeed and the two URLs
are appended after the existing committed entry, in order. -/
theorem batch_append_witness :
    onDropMultiple (some ["https://cdn/old.jpg"])
      [(⟨"a.png", "image/png", 100, none⟩, .ok ⟨"a.png", "image/png", 50, none⟩),
       (⟨"b.png", "image/png", 100, none⟩, .ok ⟨"b.png", "image/png", 60, none⟩)]
      {} (fun f => .ok ("https://cdn/" ++ f.name))
      = some ["https://cdn/old.jpg", "https://cdn/a.png", "https://cdn/b.png"] :=
  batch_append ["https://cdn/old.jpg"] ["https://cdn/a.png", "https://cdn/b.png"]
    _ {} _ (by decide) (by decide)

/-- Counterexample to claim C4 as stated: in the multiple-mode batch, a file
whose compression fails is handed to the upload contract as its raw original
(the per-file `catch` returns the uncompressed input), and the resulting URL
is even committed. -/
theorem compression_fallback_cex :
    batchPayload ⟨"broken.png", "image/png", 500000, none⟩ {}
        (.error "decode failure")
      = ⟨"broken.png", "image/png", 500000, none⟩
    ∧ onDropMultiple (some [])
        [(⟨"broken.png", "image/png", 500000, none⟩, .error "decode failure")]
        {} (fun f => .ok ("https://cdn/" ++ f.name))
      = some ["https://cdn/broken.png"] := by
  decide

/-- Claim C4 as amended: a compression failure is reported without falling
back to the raw original in the hook — the active session's failure handler
records the error message, clears the compressing flag and leaves the
committed `compressedFile` untouched — and in the single-mode crop path,
which commits nothing when compression fails, whatever the upload
collaborator would answer; but in the multiple-mode batch the raw original
is used as that file's upload payload. -/
theorem compression_failure_handling :
    (∀ (file : FileModel) (options : CompressOptions) (e : String),
      batchPayload file options (.error e) = file)
    ∧ (∀ (cropped : FileModel) (options : CompressOptions) (e : String)
        (upload : FileModel → Except String String),
      handleCropAndUpload (some cropped) options (.error e) upload = none)
    ∧ (∀ (h : HookState) (message : String),
      (hookStep h (.compressFailed h.counter message)).ui.error = some message
      ∧ (hookStep h (.compressFailed h.counter message)).ui.isCompressing = false
      ∧ (hookStep h (.compressFailed h.counter message)).ui.compressedFile
        = h.ui.compressedFile) := by
  refine ⟨fun _ _ _ => rfl, fun _ _ _ _ => rfl, fun h message => ?_⟩
  cases h with
  | mk ui counter => simp [hookStep, applyCompressFailure]

/-- Claim C5 evaluated at its failing input: one single-mode selection in the
`FileUpload` control followed by dialog close and teardown allocates one
preview object URL and releases none — the control never calls
`URL.revokeObjectURL`, so released ≠ allocated. -/
theorem preview_leak_in_control :
    (([ControlEvent.selectSingle, .closeDialog, .teardown].foldl
        controlStep {}).allocated = 1)
    ∧ (([ControlEvent.selectSingle, .closeDialog, .teardown].foldl
        controlStep {}).released = 0) := by
  decide

end ImagePipeline
